import Mathlib

/-!
# Baseline onboarding step (`Components/Paths/LifeGPA/Onboarding/Baseline.js`)

A shallow embedding of the `Baseline` React component: its five `useState`
cells, the two `useEffect` bodies (`fetchCategories` and the readiness
effect), the two change handlers and `handleSubmit`.

Modelling conventions.

* A category identifier is a natural number (the row id of `gpa_categories`).
  As a property key the number `n` is its decimal string, which is injective,
  so keys of the `grades` and `descriptions` objects are compared as numbers.
* `grades` and `descriptions` are JavaScript objects whose values are the
  strings handed over by `e.target.value`; an object is an association list,
  a missing key reads as `undefined` (`none`).
* The `await`ed backend calls are answered by a `Backend`, a pair of
  functions from the request to its outcome; an outcome is either the resolved
  `{ data, error }` pair or a thrown exception.
* `navigate(...)` calls and the requests sent to the backend are recorded in
  the component record itself (`navigated`, `reads`, `writes`), oldest first.
  Console output is not recorded.
-/

namespace Baseline

/-! ## Data model -/

/-- The element `{ id, name }` of the `categories` state. -/
structure Category where
  id : Nat
  name : String
  deriving DecidableEq

/-- A row `{ id, category_name }` as returned by the `gpa_categories` read. -/
structure CategoryRow where
  id : Nat
  category_name : String
  deriving DecidableEq

/-- The `user` prop, of which only `user.id` is used. -/
structure User where
  id : String
  deriving DecidableEq

/-- A JavaScript object with numeric keys and string values. -/
def JsObject : Type := List (Nat × String)

instance : DecidableEq JsObject := inferInstanceAs (DecidableEq (List (Nat × String)))

/-- The object literal `{}`. -/
def JsObject.empty : JsObject := ([] : List (Nat × String))

/-- Property read `obj[key]`; `none` is `undefined`. -/
def JsObject.read : JsObject → Nat → Option String
  | [], _ => none
  | (k, v) :: rest, key => if k = key then some v else JsObject.read rest key

/-- The object `{ ...obj, [key]: value }`: an existing key keeps its place and
takes the new value, a new key is added. -/
def JsObject.assign : JsObject → Nat → String → JsObject
  | [], key, value => [(key, value)]
  | (k, v) :: rest, key, value =>
    if k = key then (key, value) :: rest else (k, v) :: JsObject.assign rest key value

/-- JavaScript truthiness of a value that is `undefined` or a string. -/
def truthy : Option String → Bool
  | none => false
  | some v => !(v == "")

/-- The expression `value || ''` on a value that is `undefined` or a string. -/
def orEmpty (value : Option String) : String :=
  match value with
  | some v => if truthy (some v) then v else ""
  | none => ""

/-- One element `{ category_id, grade, description }` of `reportData`. -/
structure ReportRecord where
  category_id : Nat
  grade : String
  description : String
  deriving DecidableEq

/-- The query `from('gpa_categories').select('id, category_name').eq('user_id', user.id)`. -/
structure SelectQuery where
  table : String
  columns : String
  user_id : String
  deriving DecidableEq

/-- The row handed to `from('report_cards').insert([...])`. -/
structure InsertRequest where
  table : String
  user_id : String
  report_data : List ReportRecord
  deriving DecidableEq

/-- What `await supabase...select(...)` produces: the resolved `{ data, error }`
(`data` may be `null`, `error` is `null` or an error with a message), or an
exception. -/
inductive SelectOutcome where
  | resolved (data : Option (List CategoryRow)) (error : Option String)
  | thrown
  deriving DecidableEq

/-- What `await supabase...insert(...)` produces: the resolved `{ data, error }`
(only `error` is inspected), or an exception. -/
inductive InsertOutcome where
  | resolved (error : Option String)
  | thrown
  deriving DecidableEq

/-- The shared backend client, as far as this component calls it. -/
structure Backend where
  select : SelectQuery → SelectOutcome
  insert : InsertRequest → InsertOutcome

/-- The component: the five state cells, followed by the record of the
navigations performed and of the backend requests issued. -/
structure Component where
  categories : List Category
  grades : JsObject
  descriptions : JsObject
  error : String
  isSubmitEnabled : Bool
  navigated : List String
  reads : List SelectQuery
  writes : List InsertRequest

/-- The state at mount: the initial values of the `useState` calls. -/
def Component.initial : Component where
  categories := []
  grades := JsObject.empty
  descriptions := JsObject.empty
  error := ""
  isSubmitEnabled := false
  navigated := []
  reads := []
  writes := []

/-! ## Operations -/

/-- The `data.map((item) => ({ id: item.id, name: item.category_name }))` of
`fetchCategories`. -/
def toCategories (data : List CategoryRow) : List Category :=
  data.map (fun item => { id := item.id, name := item.category_name })

/-- The request built by `fetchCategories` for a user. -/
def selectQuery (user : User) : SelectQuery :=
  { table := "gpa_categories", columns := "id, category_name", user_id := user.id }

/-- The body of `fetchCategories`. Without a user it navigates to `/login`
and returns. Otherwise it issues the read; an `error` in the answer is only
logged, an answer without error stores the mapped rows (`data.map` on a `null`
data throws inside the `try`), and an exception is only logged. -/
def fetchCategories (user : Option User) (backend : Backend) (s : Component) : Component :=
  match user with
  | none => { s with navigated := s.navigated ++ ["/login"] }
  | some u =>
    let s1 := { s with reads := s.reads ++ [selectQuery u] }
    match backend.select (selectQuery u) with
    | .resolved data error =>
      match error with
      | some _ => s1
      | none =>
        match data with
        | some rows => { s1 with categories := toCategories rows }
        | none => s1
    | .thrown => s1

/-- The value `allGradesSelected` of the readiness effect:
`categories.length > 0 && categories.every((category) => grades[category.id])`. -/
def allGradesSelected (categories : List Category) (grades : JsObject) : Bool :=
  decide (categories.length > 0) &&
    categories.all (fun category => truthy (grades.read category.id))

/-- The readiness effect: `setIsSubmitEnabled(allGradesSelected)`. -/
def readinessEffect (s : Component) : Component :=
  { s with isSubmitEnabled := allGradesSelected s.categories s.grades }

/-- The handler `handleGradeChange(categoryId, grade)`. -/
def handleGradeChange (categoryId : Nat) (grade : String) (s : Component) : Component :=
  { s with grades := s.grades.assign categoryId grade }

/-- The handler `handleDescriptionChange(categoryId, description)`. -/
def handleDescriptionChange (categoryId : Nat) (description : String) (s : Component) :
    Component :=
  { s with descriptions := s.descriptions.assign categoryId description }

/-- The `reportData` of `handleSubmit`. -/
def reportData (categories : List Category) (grades descriptions : JsObject) :
    List ReportRecord :=
  categories.map (fun category =>
    { category_id := category.id
      grade := orEmpty (grades.read category.id)
      description := orEmpty (descriptions.read category.id) })

/-- The row `handleSubmit` inserts for a user. -/
def insertRequest (user : User) (s : Component) : InsertRequest :=
  { table := "report_cards", user_id := user.id,
    report_data := reportData s.categories s.grades s.descriptions }

/-- The body of `handleSubmit`. Reading `user.id` of a missing user throws
inside the `try`, before any request is issued. An `error` in the answer sets
the first message, an answer without error navigates to `/life-gpa/home`, and
an exception sets the second message. -/
def handleSubmit (user : Option User) (backend : Backend) (s : Component) : Component :=
  match user with
  | none => { s with error := "An unexpected error occurred. Please try again." }
  | some u =>
    let s1 := { s with writes := s.writes ++ [insertRequest u s] }
    match backend.insert (insertRequest u s) with
    | .resolved error =>
      match error with
      | some _ => { s1 with error := "Failed to save baseline report. Please try again." }
      | none => { s1 with navigated := s1.navigated ++ ["/life-gpa/home"] }
    | .thrown => { s1 with error := "An unexpected error occurred. Please try again." }

/-! ## Rendering cycle

A state change re-renders the component, and an effect runs again after a
render in which one of its dependencies changed. `setGrades` always stores a
fresh object and `setCategories` a fresh array, so the readiness effect runs
after each of them; `setDescriptions` touches none of its dependencies. -/

/-- The edit `setGrade(categoryId, grade)` as the user sees it:
`handleGradeChange` followed by the readiness effect. -/
def setGrade (categoryId : Nat) (grade : String) (s : Component) : Component :=
  readinessEffect (handleGradeChange categoryId grade s)

/-- The edit `setDescription(categoryId, text)`: `handleDescriptionChange`; the
readiness effect does not run. -/
def setDescription (categoryId : Nat) (text : String) (s : Component) : Component :=
  handleDescriptionChange categoryId text s

/-- The mount (or a change of `user`): `fetchCategories` followed by the
readiness effect. -/
def loadCategories (user : Option User) (backend : Backend) (s : Component) : Component :=
  readinessEffect (fetchCategories user backend s)

/-- A sequence of `setGrade` calls, applied first to last. -/
def setGrades (calls : List (Nat × String)) (s : Component) : Component :=
  calls.foldl (fun acc call => setGrade call.1 call.2 acc) s

/-! ## Specification-side definitions -/

/-- The record the specification assigns to a category:
`{category_id: category.id, grade: grades[id] ?? '', description: descriptions[id] ?? ''}`. -/
def specRecord (grades descriptions : JsObject) (category : Category) : ReportRecord :=
  { category_id := category.id
    grade := (grades.read category.id).getD ""
    description := (descriptions.read category.id).getD "" }

/-- A category id has a grade that is set and is not the empty string. -/
def hasGrade (grades : JsObject) (id : Nat) : Prop :=
  ∃ g, grades.read id = some g ∧ g ≠ ""

/-- The insert failed: it answered with an error, or it threw. -/
def InsertOutcome.failed : InsertOutcome → Bool
  | .resolved (some _) => true
  | .resolved none => false
  | .thrown => true

/-- The read failed: it answered with an error, or it threw. -/
def SelectOutcome.failed : SelectOutcome → Bool
  | .resolved _ (some _) => true
  | .resolved _ none => false
  | .thrown => true

/-- The grade a sequence of `setGrade` calls leaves for an id: the grade of the
last call for that id, `none` when no call names it. -/
def lastGrade : List (Nat × String) → Nat → Option String
  | [], _ => none
  | (k, g) :: rest, key =>
    match lastGrade rest key with
    | some later => some later
    | none => if k = key then some g else none

/-! ## Sample data -/

/-- A backend that answers every read and every insert in a fixed way. -/
def Backend.answering (sel : SelectOutcome) (ins : InsertOutcome) : Backend :=
  { select := fun _ => sel, insert := fun _ => ins }

/-- A signed-in user. -/
def sampleUser : User := { id := "user-1" }

/-- The rows of the categories `[{id:1,name:"Health"},{id:2,name:"Career"}]`. -/
def sampleRows : List CategoryRow :=
  [{ id := 1, category_name := "Health" }, { id := 2, category_name := "Career" }]

/-- A backend whose read returns `sampleRows` and whose insert succeeds. -/
def sampleBackend : Backend :=
  Backend.answering (.resolved (some sampleRows) none) (.resolved none)

/-- A backend whose read and insert both answer with an error. -/
def failingBackend : Backend :=
  Backend.answering (.resolved none (some "permission denied"))
    (.resolved (some "permission denied"))

/-- The component after a load that returned no category, with no edit. -/
def emptyLoadState : Component :=
  setGrades []
    (loadCategories (some sampleUser)
      (Backend.answering (.resolved (some []) none) (.resolved none)) Component.initial)

/-- The component after loading `sampleRows`. -/
def loadedState : Component :=
  loadCategories (some sampleUser) sampleBackend Component.initial

/-- The state of the record-completeness example: grade 1 set to `A`,
description 2 set to `needs work`. -/
def partlyGradedState : Component :=
  setDescription 2 "needs work" (setGrade 1 "A" loadedState)

/-- Both categories graded. -/
def fullyGradedState : Component :=
  setGrade 2 "B+" (setGrade 1 "A" loadedState)

/-- The fully graded component after a submit that the backend rejected. -/
def afterFailedSubmit : Component :=
  handleSubmit (some sampleUser) failingBackend fullyGradedState

/-! ## Lemmas on objects and truthiness -/

theorem truthy_iff (value : Option String) :
    truthy value = true ↔ ∃ g, value = some g ∧ g ≠ "" := by
  cases value with
  | none => simp [truthy]
  | some v => simp [truthy]

theorem orEmpty_eq_getD (value : Option String) : orEmpty value = value.getD "" := by
  cases value with
  | none => rfl
  | some v =>
    by_cases h : v = ""
    · simp [orEmpty, truthy, h]
    · simp [orEmpty, truthy, h]

theorem read_assign_same (obj : JsObject) (key : Nat) (value : String) :
    (obj.assign key value).read key = some value := by
  induction obj with
  | nil => simp [JsObject.assign, JsObject.read]
  | cons p rest ih =>
    obtain ⟨k, v⟩ := p
    by_cases h : k = key
    · simp [JsObject.assign, JsObject.read, h]
    · simp [JsObject.assign, JsObject.read, h, ih]

theorem read_assign_other (obj : JsObject) (key other : Nat) (value : String)
    (hne : other ≠ key) : (obj.assign key value).read other = obj.read other := by
  induction obj with
  | nil =>
    have h : ¬ key = other := fun e => hne e.symm
    simp [JsObject.assign, JsObject.read, h]
  | cons p rest ih =>
    obtain ⟨k, v⟩ := p
    by_cases h : k = key
    · subst h
      have h2 : ¬ k = other := fun e => hne e.symm
      simp [JsObject.assign, JsObject.read, h2]
    · by_cases h3 : k = other
      · subst h3
        simp [JsObject.assign, JsObject.read, h]
      · simp [JsObject.assign, JsObject.read, h, h3, ih]

theorem assign_assign_same (obj : JsObject) (key : Nat) (value : String) :
    (obj.assign key value).assign key value = obj.assign key value := by
  induction obj with
  | nil => simp [JsObject.assign]
  | cons p rest ih =>
    obtain ⟨k, v⟩ := p
    by_cases h : k = key
    · simp [JsObject.assign, h]
    · simp [JsObject.assign, h, ih]

theorem allGradesSelected_iff (categories : List Category) (grades : JsObject) :
    allGradesSelected categories grades = true ↔
      categories ≠ [] ∧ ∀ c ∈ categories, hasGrade grades c.id := by
  unfold allGradesSelected hasGrade
  simp only [Bool.and_eq_true, decide_eq_true_eq, List.all_eq_true, truthy_iff]
  constructor
  · rintro ⟨hlen, hall⟩
    exact ⟨List.ne_nil_of_length_pos hlen, hall⟩
  · rintro ⟨hne, hall⟩
    exact ⟨List.length_pos.mpr hne, hall⟩

/-! ## Lemmas on the rendering cycle -/

theorem read_foldl_assign (calls : List (Nat × String)) (obj : JsObject) (key : Nat) :
    (calls.foldl (fun o call => JsObject.assign o call.1 call.2) obj).read key =
      (lastGrade calls key).orElse (fun _ => obj.read key) := by
  induction calls generalizing obj with
  | nil => simp [lastGrade]
  | cons call rest ih =>
    obtain ⟨k, g⟩ := call
    rw [List.foldl_cons, ih, lastGrade]
    cases hrest : lastGrade rest key with
    | some later => simp
    | none =>
      by_cases hk : k = key
      · subst hk
        simp [read_assign_same]
      · have hne : key ≠ k := fun e => hk e.symm
        simp [hk, read_assign_other _ _ _ _ hne]

theorem setGrades_categories (calls : List (Nat × String)) (s : Component) :
    (setGrades calls s).categories = s.categories := by
  induction calls generalizing s with
  | nil => rfl
  | cons call rest ih =>
    simp only [setGrades, List.foldl_cons] at ih ⊢
    rw [ih]
    rfl

theorem setGrades_grades (calls : List (Nat × String)) (s : Component) :
    (setGrades calls s).grades =
      calls.foldl (fun o call => JsObject.assign o call.1 call.2) s.grades := by
  induction calls generalizing s with
  | nil => rfl
  | cons call rest ih =>
    simp only [setGrades, List.foldl_cons] at ih ⊢
    rw [ih]
    rfl

theorem setGrades_enabled (calls : List (Nat × String)) (s : Component)
    (hs : s.isSubmitEnabled = allGradesSelected s.categories s.grades) :
    (setGrades calls s).isSubmitEnabled =
      allGradesSelected (setGrades calls s).categories (setGrades calls s).grades := by
  induction calls generalizing s with
  | nil => exact hs
  | cons call rest ih =>
    simp only [setGrades, List.foldl_cons] at ih ⊢
    exact ih _ rfl

theorem read_empty (key : Nat) : JsObject.empty.read key = none := rfl

/-! ## Claims -/

/-- C1: the value the readiness effect passes to `setIsSubmitEnabled` is
`allGradesSelected`, and it is true exactly when the category list is
non-empty and every category in it has a grade entry that is set and is not
the empty string. -/
theorem readiness_iff (s : Component) :
    (readinessEffect s).isSubmitEnabled = allGradesSelected s.categories s.grades ∧
      (allGradesSelected s.categories s.grades = true ↔
        s.categories.length > 0 ∧
          ∀ c ∈ s.categories, ∃ g, s.grades.read c.id = some g ∧ g ≠ "") := by
  refine ⟨rfl, ?_⟩
  have h := allGradesSelected_iff s.categories s.grades
  simp only [hasGrade] at h
  rw [h]
  constructor
  · rintro ⟨hne, hall⟩
    exact ⟨List.length_pos.mpr hne, hall⟩
  · rintro ⟨hlen, hall⟩
    exact ⟨List.ne_nil_of_length_pos hlen, hall⟩

/-- C2, as stated, fails with 0 categories: after a load that returned no
category and no `setGrade` call, every loaded category id has a non-empty
grade (there is none), yet readiness is false. -/
theorem gate_zero_categories_counterexample :
    ¬ (emptyLoadState.isSubmitEnabled = true ↔
        ∀ c ∈ emptyLoadState.categories, hasGrade emptyLoadState.grades c.id) := by
  intro h
  have hall : ∀ c ∈ emptyLoadState.categories, hasGrade emptyLoadState.grades c.id := by
    intro c hc
    have hnil : emptyLoadState.categories = [] := by decide
    rw [hnil] at hc
    cases hc
  have htrue := h.mpr hall
  have hfalse : emptyLoadState.isSubmitEnabled = false := by decide
  rw [hfalse] at htrue
  cases htrue

/-- C2, amended: after a successful load of any rows and any sequence of
`setGrade` calls from the initial state, the categories are the loaded ones,
the grade stored for an id is the grade of the last call for it, and readiness
is true exactly when the category list is non-empty and every loaded category
id has a non-empty grade. -/
theorem gate_after_setGrades (u : User) (b : Backend) (rows : List CategoryRow)
    (calls : List (Nat × String))
    (hload : b.select (selectQuery u) = .resolved (some rows) none) :
    (setGrades calls (loadCategories (some u) b Component.initial)).categories =
        toCategories rows ∧
      (∀ key, (setGrades calls (loadCategories (some u) b Component.initial)).grades.read key =
        lastGrade calls key) ∧
      ((setGrades calls (loadCategories (some u) b Component.initial)).isSubmitEnabled = true ↔
        toCategories rows ≠ [] ∧
          ∀ c ∈ toCategories rows,
            hasGrade (setGrades calls (loadCategories (some u) b Component.initial)).grades
              c.id) := by
  have hcat : (loadCategories (some u) b Component.initial).categories = toCategories rows := by
    simp [loadCategories, readinessEffect, fetchCategories, hload]
  have hgr : (loadCategories (some u) b Component.initial).grades = JsObject.empty := by
    simp [loadCategories, readinessEffect, fetchCategories, hload, Component.initial]
  have hcats : (setGrades calls (loadCategories (some u) b Component.initial)).categories =
      toCategories rows := by
    rw [setGrades_categories, hcat]
  refine ⟨hcats, ?_, ?_⟩
  · intro key
    rw [setGrades_grades, read_foldl_assign, hgr, read_empty]
    cases lastGrade calls key <;> rfl
  · rw [setGrades_enabled calls _ rfl, allGradesSelected_iff, hcats]

/-- Witness of `gate_after_setGrades`: the two sample categories, graded `A`
and `B+` with the first grade chosen twice. -/
theorem gate_after_setGrades_witness :
    sampleBackend.select (selectQuery sampleUser) = .resolved (some sampleRows) none ∧
      (setGrades [(1, "C"), (2, "B+"), (1, "A")]
        (loadCategories (some sampleUser) sampleBackend Component.initial)).categories =
        toCategories sampleRows ∧
      (∀ key, (setGrades [(1, "C"), (2, "B+"), (1, "A")]
          (loadCategories (some sampleUser) sampleBackend Component.initial)).grades.read key =
        lastGrade [(1, "C"), (2, "B+"), (1, "A")] key) ∧
      ((setGrades [(1, "C"), (2, "B+"), (1, "A")]
          (loadCategories (some sampleUser) sampleBackend Component.initial)).isSubmitEnabled =
            true ↔
        toCategories sampleRows ≠ [] ∧
          ∀ c ∈ toCategories sampleRows,
            hasGrade (setGrades [(1, "C"), (2, "B+"), (1, "A")]
              (loadCategories (some sampleUser) sampleBackend Component.initial)).grades c.id) :=
  ⟨rfl,
    gate_after_setGrades sampleUser sampleBackend sampleRows [(1, "C"), (2, "B+"), (1, "A")] rfl⟩

/-- C3: the `reportData` of `handleSubmit` is the category list mapped in order
to the specification's record (absent grade or description read as the empty
string), one record per category with the categories' ids in order; it is the
`report_data` of the row `handleSubmit` writes; and in the record-completeness
example the payload is the stated one while readiness is false. -/
theorem reportData_spec (categories : List Category) (grades descriptions : JsObject) :
    reportData categories grades descriptions =
        categories.map (specRecord grades descriptions) ∧
      (reportData categories grades descriptions).length = categories.length ∧
      (reportData categories grades descriptions).map (fun r => r.category_id) =
        categories.map (fun c => c.id) ∧
      (∀ (u : User) (b : Backend) (s : Component),
        (handleSubmit (some u) b s).writes = s.writes ++
          [{ table := "report_cards", user_id := u.id,
             report_data := reportData s.categories s.grades s.descriptions }]) ∧
      partlyGradedState.categories = [{ id := 1, name := "Health" }, { id := 2, name := "Career" }] ∧
      reportData partlyGradedState.categories partlyGradedState.grades
          partlyGradedState.descriptions =
        [{ category_id := 1, grade := "A", description := "" },
         { category_id := 2, grade := "", description := "needs work" }] ∧
      allGradesSelected partlyGradedState.categories partlyGradedState.grades = false ∧
      partlyGradedState.isSubmitEnabled = false := by
  refine ⟨?_, ?_, ?_, ?_, by decide, by decide, by decide, by decide⟩
  · simp [reportData, specRecord, orEmpty_eq_getD]
  · simp [reportData]
  · simp [reportData]
  · intro u b s
    unfold handleSubmit
    simp only [insertRequest]
    cases b.insert _ with
    | resolved error => cases error <;> rfl
    | thrown => rfl

/-- C4: in a state where readiness is true, if the insert issued by
`handleSubmit` answers with an error or throws, then afterwards the error
message is a non-empty string, no navigation was performed, and the
categories, grades and descriptions are what they were before the call. -/
theorem handleSubmit_failure (u : User) (b : Backend) (s : Component)
    (_hready : allGradesSelected s.categories s.grades = true)
    (hfail : (b.insert (insertRequest u s)).failed = true) :
    (handleSubmit (some u) b s).error ≠ "" ∧
      (handleSubmit (some u) b s).navigated = s.navigated ∧
      (handleSubmit (some u) b s).categories = s.categories ∧
      (handleSubmit (some u) b s).grades = s.grades ∧
      (handleSubmit (some u) b s).descriptions = s.descriptions := by
  cases hins : b.insert (insertRequest u s) with
  | resolved error =>
    cases error with
    | none => simp [hins, InsertOutcome.failed] at hfail
    | some e =>
      simp [handleSubmit, hins]
  | thrown =>
    simp [handleSubmit, hins]

/-- Witness of `handleSubmit_failure`: the fully graded sample state and a
backend that rejects the insert. -/
theorem handleSubmit_failure_witness :
    allGradesSelected fullyGradedState.categories fullyGradedState.grades = true ∧
      (failingBackend.insert (insertRequest sampleUser fullyGradedState)).failed = true ∧
      (handleSubmit (some sampleUser) failingBackend fullyGradedState).error ≠ "" ∧
      (handleSubmit (some sampleUser) failingBackend fullyGradedState).navigated =
        fullyGradedState.navigated ∧
      (handleSubmit (some sampleUser) failingBackend fullyGradedState).categories =
        fullyGradedState.categories ∧
      (handleSubmit (some sampleUser) failingBackend fullyGradedState).grades =
        fullyGradedState.grades ∧
      (handleSubmit (some sampleUser) failingBackend fullyGradedState).descriptions =
        fullyGradedState.descriptions :=
  ⟨by decide, by decide,
    handleSubmit_failure sampleUser failingBackend fullyGradedState (by decide) (by decide)⟩

/-- C5, as stated, fails after an earlier failed submit: readiness is true and
the insert succeeds, the navigation to `/life-gpa/home` happens, but the error
string of the resulting state is still the message of the failed submit. -/
theorem handleSubmit_success_keeps_error_counterexample :
    allGradesSelected afterFailedSubmit.categories afterFailedSubmit.grades = true ∧
      sampleBackend.insert (insertRequest sampleUser afterFailedSubmit) = .resolved none ∧
      (handleSubmit (some sampleUser) sampleBackend afterFailedSubmit).navigated =
        ["/life-gpa/home"] ∧
      (handleSubmit (some sampleUser) sampleBackend afterFailedSubmit).error =
        "Failed to save baseline report. Please try again." ∧
      (handleSubmit (some sampleUser) sampleBackend afterFailedSubmit).error ≠ "" := by
  refine ⟨by decide, rfl, by decide, by decide, by decide⟩

/-- C5, amended: in a state where readiness is true, if the insert issued by
`handleSubmit` succeeds, then `handleSubmit` navigates to `/life-gpa/home` and
leaves the error string, the categories, the grades and the descriptions as
they were; so no error message is shown when none was shown before the call. -/
theorem handleSubmit_success (u : User) (b : Backend) (s : Component)
    (_hready : allGradesSelected s.categories s.grades = true)
    (hok : b.insert (insertRequest u s) = .resolved none) :
    (handleSubmit (some u) b s).navigated = s.navigated ++ ["/life-gpa/home"] ∧
      (handleSubmit (some u) b s).error = s.error ∧
      (s.error = "" → (handleSubmit (some u) b s).error = "") ∧
      (handleSubmit (some u) b s).categories = s.categories ∧
      (handleSubmit (some u) b s).grades = s.grades ∧
      (handleSubmit (some u) b s).descriptions = s.descriptions := by
  simp [handleSubmit, hok]

/-- Witness of `handleSubmit_success`: the fully graded sample state, never
submitted before, and a backend that accepts the insert: the component
navigates home and its error string is still empty. -/
theorem handleSubmit_success_witness :
    allGradesSelected fullyGradedState.categories fullyGradedState.grades = true ∧
      sampleBackend.insert (insertRequest sampleUser fullyGradedState) = .resolved none ∧
      (handleSubmit (some sampleUser) sampleBackend fullyGradedState).navigated =
        fullyGradedState.navigated ++ ["/life-gpa/home"] ∧
      (handleSubmit (some sampleUser) sampleBackend fullyGradedState).error = "" :=
  ⟨by decide, rfl,
    (handleSubmit_success sampleUser sampleBackend fullyGradedState (by decide) rfl).1,
    (handleSubmit_success sampleUser sampleBackend fullyGradedState (by decide) rfl).2.2.1
      (by decide)⟩

/-- C6: `handleGradeChange(id, grade)` applied twice yields the same grades
object and the same component state as applied once, with or without the
readiness effect that follows each call. -/
theorem setGrade_idempotent (s : Component) (categoryId : Nat) (grade : String) :
    (s.grades.assign categoryId grade).assign categoryId grade =
        s.grades.assign categoryId grade ∧
      handleGradeChange categoryId grade (handleGradeChange categoryId grade s) =
        handleGradeChange categoryId grade s ∧
      setGrade categoryId grade (setGrade categoryId grade s) = setGrade categoryId grade s := by
  refine ⟨assign_assign_same _ _ _, ?_, ?_⟩
  · simp [handleGradeChange, assign_assign_same]
  · simp [setGrade, readinessEffect, handleGradeChange, assign_assign_same]

/-- C7, as stated, fails when the list is already non-empty: after a successful
load of the two sample categories, a read that answers with an error leaves
both categories in the list. -/
theorem fetchCategories_failure_keeps_list_counterexample :
    (failingBackend.select (selectQuery sampleUser)).failed = true ∧
      loadedState.categories ≠ [] ∧
      (fetchCategories (some sampleUser) failingBackend loadedState).categories =
        [{ id := 1, name := "Health" }, { id := 2, name := "Career" }] ∧
      (fetchCategories (some sampleUser) failingBackend loadedState).categories ≠ [] := by
  refine ⟨by decide, by decide, by decide, by decide⟩

/-- C7, amended: for a non-null user, if the category read answers with an
error or throws, `fetchCategories` leaves the category list as it was; so the
list is empty afterwards when it was empty before, as at mount. -/
theorem fetchCategories_failure (u : User) (b : Backend) (s : Component)
    (hfail : (b.select (selectQuery u)).failed = true) :
    (fetchCategories (some u) b s).categories = s.categories ∧
      (s.categories = [] → (fetchCategories (some u) b s).categories = []) ∧
      (fetchCategories (some u) b Component.initial).categories = [] := by
  have key : ∀ t : Component, (fetchCategories (some u) b t).categories = t.categories := by
    intro t
    cases hsel : b.select (selectQuery u) with
    | resolved data error =>
      cases error with
      | none => simp [hsel, SelectOutcome.failed] at hfail
      | some e => simp only [fetchCategories, hsel]
    | thrown => simp only [fetchCategories, hsel]
  refine ⟨key s, fun h => by rw [key s, h], by rw [key]; rfl⟩

/-- Witness of `fetchCategories_failure`: the first load at mount, answered
with an error, leaves the list empty. -/
theorem fetchCategories_failure_witness :
    (failingBackend.select (selectQuery sampleUser)).failed = true ∧
      Component.initial.categories = [] ∧
      (fetchCategories (some sampleUser) failingBackend Component.initial).categories = [] :=
  ⟨by decide, rfl,
    (fetchCategories_failure sampleUser failingBackend Component.initial (by decide)).2.1 rfl⟩

/-- C8: without a user `fetchCategories` navigates to `/login`, issues no
backend read and leaves the category list (and every state cell) unchanged;
with a user it performs no navigation and issues the read. -/
theorem fetchCategories_redirect (b : Backend) (s : Component) :
    (fetchCategories none b s).navigated = s.navigated ++ ["/login"] ∧
      (fetchCategories none b s).reads = s.reads ∧
      (fetchCategories none b s).categories = s.categories ∧
      (fetchCategories none b s).grades = s.grades ∧
      (fetchCategories none b s).descriptions = s.descriptions ∧
      (fetchCategories none b s).error = s.error ∧
      (∀ u : User, (fetchCategories (some u) b s).navigated = s.navigated) ∧
      (∀ u : User, (fetchCategories (some u) b s).reads = s.reads ++ [selectQuery u]) := by
  refine ⟨rfl, rfl, rfl, rfl, rfl, rfl, ?_, ?_⟩
  · intro u
    cases hsel : b.select (selectQuery u) with
    | resolved data error =>
      cases error with
      | none => cases data <;> simp [fetchCategories, hsel]
      | some e => simp [fetchCategories, hsel]
    | thrown => simp [fetchCategories, hsel]
  · intro u
    cases hsel : b.select (selectQuery u) with
    | resolved data error =>
      cases error with
      | none => cases data <;> simp [fetchCategories, hsel]
      | some e => simp [fetchCategories, hsel]
    | thrown => simp [fetchCategories, hsel]

/-- C9: when readiness is true for a category list and a grades object, the
payload of `handleSubmit` is non-empty and every record in it has a non-empty
grade, the one stored for its `category_id`. -/
theorem reportData_of_ready (categories : List Category) (grades descriptions : JsObject)
    (hready : allGradesSelected categories grades = true) :
    reportData categories grades descriptions ≠ [] ∧
      ∀ r ∈ reportData categories grades descriptions,
        r.grade ≠ "" ∧ grades.read r.category_id = some r.grade := by
  obtain ⟨hne, hall⟩ := (allGradesSelected_iff categories grades).mp hready
  constructor
  · intro h
    apply hne
    simpa [reportData] using h
  · intro r hr
    simp only [reportData, List.mem_map] at hr
    obtain ⟨c, hc, rfl⟩ := hr
    obtain ⟨g, hg, hgne⟩ := hall c hc
    simp [hg, orEmpty_eq_getD, hgne]

/-- Witness of `reportData_of_ready`: the fully graded sample state. -/
theorem reportData_of_ready_witness :
    allGradesSelected fullyGradedState.categories fullyGradedState.grades = true ∧
      reportData fullyGradedState.categories fullyGradedState.grades
        fullyGradedState.descriptions ≠ [] ∧
      ∀ r ∈ reportData fullyGradedState.categories fullyGradedState.grades
          fullyGradedState.descriptions,
        r.grade ≠ "" ∧ fullyGradedState.grades.read r.category_id = some r.grade :=
  ⟨by decide,
    reportData_of_ready fullyGradedState.categories fullyGradedState.grades
      fullyGradedState.descriptions (by decide)⟩

/-- C10: `handleGradeChange(id, grade)` stores exactly that grade for `id`,
keeps the grade of every other id, and keeps the categories, descriptions and
error message; `handleDescriptionChange(id, text)` stores the text for `id`,
keeps every other description, all grades, and the readiness value. -/
theorem handlers_frame (s : Component) (categoryId : Nat) (value : String) :
    ((handleGradeChange categoryId value s).grades.read categoryId = some value ∧
      (∀ other, other ≠ categoryId →
        (handleGradeChange categoryId value s).grades.read other = s.grades.read other) ∧
      (handleGradeChange categoryId value s).categories = s.categories ∧
      (handleGradeChange categoryId value s).descriptions = s.descriptions ∧
      (handleGradeChange categoryId value s).error = s.error ∧
      (setGrade categoryId value s).grades = (handleGradeChange categoryId value s).grades ∧
      (setGrade categoryId value s).categories = s.categories ∧
      (setGrade categoryId value s).descriptions = s.descriptions ∧
      (setGrade categoryId value s).error = s.error) ∧
    ((handleDescriptionChange categoryId value s).descriptions.read categoryId = some value ∧
      (∀ other, other ≠ categoryId →
        (handleDescriptionChange categoryId value s).descriptions.read other =
          s.descriptions.read other) ∧
      (handleDescriptionChange categoryId value s).grades = s.grades ∧
      (handleDescriptionChange categoryId value s).categories = s.categories ∧
      (handleDescriptionChange categoryId value s).isSubmitEnabled = s.isSubmitEnabled ∧
      allGradesSelected (handleDescriptionChange categoryId value s).categories
          (handleDescriptionChange categoryId value s).grades =
        allGradesSelected s.categories s.grades ∧
      (readinessEffect (handleDescriptionChange categoryId value s)).isSubmitEnabled =
        (readinessEffect s).isSubmitEnabled) := by
  refine ⟨⟨read_assign_same _ _ _, ?_, rfl, rfl, rfl, rfl, rfl, rfl, rfl⟩,
    ⟨read_assign_same _ _ _, ?_, rfl, rfl, rfl, rfl, rfl⟩⟩
  · intro other hne
    exact read_assign_other _ _ _ _ hne
  · intro other hne
    exact read_assign_other _ _ _ _ hne

/-- Witness of `handlers_frame`: grading category 1 of the loaded sample state
keeps the (absent) entry of category 2, and likewise for its description. -/
theorem handlers_frame_witness :
    (handleGradeChange 1 "A" loadedState).grades.read 1 = some "A" ∧
      (2 ≠ 1 ∧ (handleGradeChange 1 "A" loadedState).grades.read 2 =
        loadedState.grades.read 2) ∧
      (handleDescriptionChange 1 "A" loadedState).descriptions.read 1 = some "A" ∧
      (2 ≠ 1 ∧ (handleDescriptionChange 1 "A" loadedState).descriptions.read 2 =
        loadedState.descriptions.read 2) :=
  ⟨(handlers_frame loadedState 1 "A").1.1,
    ⟨by decide, (handlers_frame loadedState 1 "A").1.2.1 2 (by decide)⟩,
    (handlers_frame loadedState 1 "A").2.1,
    ⟨by decide, (handlers_frame loadedState 1 "A").2.2.1 2 (by decide)⟩⟩

end Baseline
